import Mathlib

/-!
Verification of the tradebot data-acquisition pipeline.

This file gives a shallow embedding of the Python modules
tradebot/utils/rate_limiter.py, tradebot/data/cache.py,
tradebot/data/validator.py, tradebot/data/freshness.py,
tradebot/data/batch.py and tradebot/data/fetcher.py, and proves or
refutes the specified properties against that embedding.

Modelling conventions:
- Calendar days are natural numbers (the Python code compares ISO date
  strings for equality only, so any type with decidable equality is a
  faithful model).
- Wall-clock instants and timestamps are rationals, measured in minutes.
- Python exceptions are values of the PyError inductive; a fallible
  Python function becomes a Lean function returning Except PyError.
- SQLite tables become Lean lists of row structures; the SQL queries of
  the source are translated into list operations.
- Sleeping (time.sleep in acquire) and the wall-clock spacing field
  last_request_time are real-time behaviour outside the scope of every
  claim treated here; they are dropped from the ledger state, which
  keeps exactly the quota-relevant fields (date, requests_used).
-/

namespace Tradebot

/-- Python exception classes that appear in the embedded code paths.
valueError is the Python builtin ValueError; the others are the classes
of tradebot/exceptions.py (each a direct subclass of TradebotError). -/
inductive PyError where
  | valueError
  | validationError
  | quotaExceeded
  | invalidSymbol
  | dataFetch
deriving DecidableEq, Repr

/-! ## Quota ledger (tradebot/utils/rate_limiter.py, class RateLimiter)

The persistent state manipulated by RateLimiter is the current-day row
of the quota_tracking table: a date and a requests_used counter. -/

/-- Current-day quota row: the date field and the requests_used counter
of RateLimiter._current_usage. -/
structure Ledger where
  day : Nat
  used : Nat
deriving DecidableEq, Repr

/-- RateLimiter._reset_daily_quota: replaces the current usage with a
zeroed row for today. -/
def resetDailyQuota (today : Nat) : Ledger :=
  { day := today, used := 0 }

/-- The day-rollover check performed at the top of can_make_request,
record_request and get_usage: if the stored date differs from today,
reset the quota for the new day. -/
def rolloverIfNewDay (today : Nat) (s : Ledger) : Ledger :=
  if s.day = today then s else resetDailyQuota today

/-- RateLimiter.can_make_request: after day rollover, a request is
allowed iff requests_used has not reached daily_limit. Returns the
answer together with the (possibly rolled-over) persisted state. -/
def canMakeRequest (limit today : Nat) (s : Ledger) : Bool × Ledger :=
  let s2 := rolloverIfNewDay today s
  (decide (s2.used < limit), s2)

/-- RateLimiter.record_request: after day rollover, increments
requests_used by one and persists. No bound is checked. -/
def recordRequest (today : Nat) (s : Ledger) : Ledger :=
  let s2 := rolloverIfNewDay today s
  { day := s2.day, used := s2.used + 1 }

/-- Usage snapshot returned by RateLimiter.get_usage. remaining is
computed in Python int arithmetic, so it may be negative; percentage is
the float expression (used / limit) * 100 modelled in the rationals
(the Python code raises ZeroDivisionError when limit is zero, so the
percentage field is only meaningful for a positive limit). -/
structure UsageStats where
  used : Nat
  limit : Nat
  remaining : Int
  percentage : Rat
deriving DecidableEq, Repr

/-- RateLimiter.get_usage: after day rollover, reports used, limit,
remaining = limit - used and percentage = used / limit * 100. Returns
the snapshot with the (possibly rolled-over) persisted state. -/
def getUsage (limit today : Nat) (s : Ledger) : UsageStats × Ledger :=
  let s2 := rolloverIfNewDay today s
  ({ used := s2.used
     limit := limit
     remaining := (limit : Int) - (s2.used : Int)
     percentage := ((s2.used : Rat) / (limit : Rat)) * 100 }, s2)

/-- Outcome of RateLimiter.acquire: either the QuotaExceededError path
or the success path, each carrying the resulting ledger state. -/
inductive AcquireOutcome where
  | quotaError (s : Ledger)
  | acquired (s : Ledger)
deriving DecidableEq, Repr

/-- RateLimiter.acquire: raises QuotaExceededError when
can_make_request is false, otherwise (after the spacing sleep, which is
pure real-time behaviour) records the request. -/
def acquire (limit today : Nat) (s : Ledger) : AcquireOutcome :=
  let r := canMakeRequest limit today s
  if r.1 then .acquired (recordRequest today r.2) else .quotaError r.2

/-- A sequence of n record_request calls, all on the same calendar day. -/
def iterRecord (today : Nat) : Nat → Ledger → Ledger
  | 0, s => s
  | n + 1, s => iterRecord today n (recordRequest today s)

theorem recordRequest_same_day (d : Nat) (u : Nat) :
    recordRequest d { day := d, used := u } = { day := d, used := u + 1 } := by
  simp [recordRequest, rolloverIfNewDay]

theorem iterRecord_fresh (d n : Nat) :
    iterRecord d n { day := d, used := 0 } = { day := d, used := n } := by
  have h : ∀ k u, iterRecord d k { day := d, used := u } = { day := d, used := u + k } := by
    intro k
    induction k with
    | zero => intro u; simp [iterRecord]
    | succ m ih =>
      intro u
      rw [iterRecord, recordRequest_same_day, ih]
      congr 1
      omega
  simpa using h n 0

/-- C2: starting from a fresh ledger day, n record_request calls leave
get_usage().used equal to n, and can_make_request() is true exactly
when n is strictly below daily_limit (so it first turns false when the
count reaches daily_limit). -/
theorem recorded_count_and_quota_gate (limit d n : Nat) :
    (getUsage limit d (iterRecord d n { day := d, used := 0 })).1.used = n ∧
    ((canMakeRequest limit d (iterRecord d n { day := d, used := 0 })).1 = true ↔
      n < limit) := by
  rw [iterRecord_fresh]
  constructor
  · simp [getUsage, rolloverIfNewDay]
  · simp [canMakeRequest, rolloverIfNewDay]

/-- C3: on one ledger day, acquire raises QuotaExceeded exactly when
can_make_request is false; the error path leaves requests_used
untouched and the success path increments it by exactly one. -/
theorem acquire_quota_gate (limit today : Nat) (s : Ledger)
    (h : s.day = today) :
    ((∃ s2, acquire limit today s = .quotaError s2) ↔
      (canMakeRequest limit today s).1 = false) ∧
    (∀ s2, acquire limit today s = .quotaError s2 → s2.used = s.used) ∧
    (∀ s2, acquire limit today s = .acquired s2 → s2.used = s.used + 1) := by
  have hroll : rolloverIfNewDay today s = s := by
    simp [rolloverIfNewDay, h]
  refine ⟨⟨?_, ?_⟩, ?_, ?_⟩
  · rintro ⟨s2, hs2⟩
    by_contra hb
    have hb2 : (canMakeRequest limit today s).1 = true := by
      cases hq : (canMakeRequest limit today s).1
      · exact absurd hq hb
      · rfl
    simp [acquire, hb2] at hs2
  · intro hfalse
    refine ⟨(canMakeRequest limit today s).2, ?_⟩
    simp [acquire, hfalse]
  · intro s2 hs2
    by_cases hq : (canMakeRequest limit today s).1
    · simp [acquire, hq] at hs2
    · have hq2 : (canMakeRequest limit today s).1 = false := by
        cases hqq : (canMakeRequest limit today s).1
        · rfl
        · exact absurd hqq hq
      simp only [acquire, hq2, Bool.false_eq_true, if_false, AcquireOutcome.quotaError.injEq] at hs2
      rw [← hs2]
      simp [canMakeRequest, hroll]
  · intro s2 hs2
    by_cases hq : (canMakeRequest limit today s).1
    · simp only [acquire, hq, if_true, AcquireOutcome.acquired.injEq] at hs2
      rw [← hs2]
      simp [canMakeRequest, recordRequest, hroll, rolloverIfNewDay, h]
    · have hq2 : (canMakeRequest limit today s).1 = false := by
        cases hqq : (canMakeRequest limit today s).1
        · rfl
        · exact absurd hqq hq
      simp [acquire, hq2] at hs2

/-- Witness for acquire_quota_gate at a concrete state: day 7, three
requests used, limit three, so the quota gate is closed. -/
theorem acquire_quota_gate_witness :
    ((∃ s2, acquire 3 7 { day := 7, used := 3 } = .quotaError s2) ↔
      (canMakeRequest 3 7 { day := 7, used := 3 }).1 = false) ∧
    (∀ s2, acquire 3 7 { day := 7, used := 3 } = .quotaError s2 →
      s2.used = 3) ∧
    (∀ s2, acquire 3 7 { day := 7, used := 3 } = .acquired s2 →
      s2.used = 3 + 1) :=
  acquire_quota_gate 3 7 { day := 7, used := 3 } rfl

/-- C10: record_request never enforces the daily cap: with
requests_used already at or past daily_limit it still increments by
one and returns normally (the function is total in the model because
the Python code has no limit check on this path), after which
get_usage reports a negative remaining and, for a positive limit, a
percentage above one hundred. -/
theorem recordRequest_never_caps (limit today : Nat) (s : Ledger)
    (hday : s.day = today) (hover : limit ≤ s.used) (hpos : 0 < limit) :
    (recordRequest today s).used = s.used + 1 ∧
    (getUsage limit today (recordRequest today s)).1.remaining < 0 ∧
    100 < (getUsage limit today (recordRequest today s)).1.percentage := by
  have hroll : rolloverIfNewDay today s = s := by
    simp [rolloverIfNewDay, hday]
  have hrec : recordRequest today s = { day := s.day, used := s.used + 1 } := by
    simp [recordRequest, hroll]
  have hroll2 : rolloverIfNewDay today { day := s.day, used := s.used + 1 } =
      { day := s.day, used := s.used + 1 } := by
    simp [rolloverIfNewDay, hday]
  refine ⟨by rw [hrec], ?_, ?_⟩
  · rw [hrec]
    simp only [getUsage, hroll2]
    omega
  · rw [hrec]
    simp only [getUsage, hroll2]
    rw [div_mul_eq_mul_div, lt_div_iff₀ (by exact_mod_cast hpos)]
    have hle : (limit : Rat) + 1 ≤ (s.used : Rat) + 1 := by
      exact_mod_cast Nat.succ_le_succ hover
    push_cast
    nlinarith [hle]

/-- Witness for recordRequest_never_caps: limit 2 already exhausted at
used 2 on day 0, record a third request anyway. -/
theorem recordRequest_never_caps_witness :
    (recordRequest 0 { day := 0, used := 2 }).used = 2 + 1 ∧
    (getUsage 2 0 (recordRequest 0 { day := 0, used := 2 })).1.remaining < 0 ∧
    100 < (getUsage 2 0 (recordRequest 0 { day := 0, used := 2 })).1.percentage :=
  recordRequest_never_caps 2 0 { day := 0, used := 2 } rfl (by decide) (by decide)

/-! ## Data frames and the validator (tradebot/data/validator.py)

A pandas DataFrame carrying OHLCV candles is modelled by its column
list, and its rows carrying the datetime index value (an integer day
code) together with the five numeric fields. Values are rationals, so
the numeric-type check of DataValidator._validate_data_types (a
pd.to_numeric conversion) always succeeds in the model, and the index
is always a valid datetime index, so the conversion branch of
_validate_chronological_order always succeeds as well. -/

/-- One row of an OHLCV frame: the datetime index value plus the five
column values. Field reads (row.open_price and so on) model the Python
subscript row of store, and are only performed after the column-presence
check, exactly as in the source. -/
structure DFRow where
  date : Int
  open_price : Rat
  high_price : Rat
  low_price : Rat
  close_price : Rat
  volume : Int
deriving DecidableEq, Repr

/-- An OHLCV pandas DataFrame: its column list and its rows. -/
structure DataFrame where
  columns : List String
  rows : List DFRow
deriving DecidableEq, Repr

/-- Pandas DataFrame.empty: true when any axis has length zero. -/
def DataFrame.isEmpty (df : DataFrame) : Bool :=
  df.rows.isEmpty || df.columns.isEmpty

/-- The datetime index of the frame. -/
def dfDates (df : DataFrame) : List Int :=
  df.rows.map (fun r => r.date)

/-- REQUIRED_COLUMNS of DataValidator, also the required_columns list
of DataCache.store. -/
def requiredColumns : List String :=
  ["open", "high", "low", "close", "volume"]

/-- The missing_columns list comprehension of DataCache.store and of
DataValidator._validate_columns. -/
def missingColumns (df : DataFrame) : List String :=
  requiredColumns.filter (fun c => !(df.columns.contains c))

/-- Pandas Index.is_monotonic_increasing: every consecutive pair is
non-strictly ordered (ties are allowed). -/
def isMonotonicIncreasing : List Int → Bool
  | [] => true
  | [_] => true
  | a :: b :: t => decide (a ≤ b) && isMonotonicIncreasing (b :: t)

/-- Strict chronological order as worded by the specification (every
consecutive pair strictly ordered). Stated for comparison with the
behaviour of the source, which uses the non-strict pandas check. -/
def strictlyIncreasing : List Int → Bool
  | [] => true
  | [_] => true
  | a :: b :: t => decide (a < b) && strictlyIncreasing (b :: t)

/-- DataValidator.validate: empty data, a missing required column, or a
non-monotonic datetime index each raise ValidationError; otherwise the
frame is returned unchanged. The numeric-type check sits between the
column check and the order check in the source and always passes in
the model (values are rationals). -/
def validate (df : DataFrame) : Except PyError DataFrame :=
  if df.isEmpty then .error .validationError
  else if !(missingColumns df).isEmpty then .error .validationError
  else if !isMonotonicIncreasing (dfDates df) then .error .validationError
  else .ok df

/-! ## Cache store (tradebot/data/cache.py and tradebot/data/models.py) -/

/-- One row of the stock_data table (model StockData). -/
structure StockRow where
  symbol : String
  date : Int
  open_price : Rat
  high_price : Rat
  low_price : Rat
  close_price : Rat
  volume : Int
deriving DecidableEq, Repr

/-- One row of the cache_metadata table (model CacheMetadata).
Timestamps are rationals in minutes. -/
structure MetaRow where
  cache_key : String
  symbol : String
  start_date : Int
  end_date : Int
  record_count : Nat
  data_size_bytes : Nat
  created_at : Rat
  last_accessed : Rat
deriving DecidableEq, Repr

/-- The two tables owned by DataCache. -/
structure CacheDB where
  stock : List StockRow
  meta : List MetaRow
deriving DecidableEq, Repr

/-- CacheMetadata.generate_cache_key: the f-string
symbol_startdate_enddate. -/
def cacheKey (symbol : String) (startDate endDate : Int) : String :=
  symbol ++ "_" ++ toString startDate ++ "_" ++ toString endDate

/-- The serialized size len(pickle.dumps(data)) of store, abstracted:
the byte count of a pickled frame is an opaque function of the frame,
modelled by its row count (no claim mentions it). -/
def pickledSize (df : DataFrame) : Nat :=
  df.rows.length

/-- The per-row create-or-update of DataCache.store: insert the row, or
on an existing (symbol, date) primary key update the five value fields
in place. -/
def upsertStockRow (symbol : String) (r : DFRow) (stock : List StockRow) :
    List StockRow :=
  if stock.any (fun x => x.symbol == symbol && x.date == r.date) then
    stock.map (fun x =>
      if x.symbol == symbol && x.date == r.date then
        { x with
          open_price := r.open_price
          high_price := r.high_price
          low_price := r.low_price
          close_price := r.close_price
          volume := r.volume }
      else x)
  else
    stock ++ [{ symbol := symbol
                date := r.date
                open_price := r.open_price
                high_price := r.high_price
                low_price := r.low_price
                close_price := r.close_price
                volume := r.volume }]

/-- The metadata create-or-update of DataCache.store: insert the
metadata row, or on an existing cache_key update record count, size and
last_accessed, keeping created_at. -/
def upsertMeta (row : MetaRow) (now : Rat) (meta : List MetaRow) :
    List MetaRow :=
  if meta.any (fun m => m.cache_key == row.cache_key) then
    meta.map (fun m =>
      if m.cache_key == row.cache_key then
        { m with
          record_count := row.record_count
          data_size_bytes := row.data_size_bytes
          last_accessed := now }
      else m)
  else meta ++ [row]

/-- DataCache.store: an empty frame is a warned no-op; a missing
required column raises the builtin ValueError; otherwise, inside one
transaction, every row is upserted into stock_data and a single
metadata row is upserted for the exact range key. -/
def store (now : Rat) (symbol : String) (startDate endDate : Int)
    (df : DataFrame) (db : CacheDB) : Except PyError CacheDB :=
  if df.isEmpty then .ok db
  else if !(missingColumns df).isEmpty then .error .valueError
  else
    .ok { stock := df.rows.foldl (fun st r => upsertStockRow symbol r st) db.stock
          meta := upsertMeta
            { cache_key := cacheKey symbol startDate endDate
              symbol := symbol
              start_date := startDate
              end_date := endDate
              record_count := df.rows.length
              data_size_bytes := pickledSize df
              created_at := now
              last_accessed := now } now db.meta }

/-- Insertion step of the ORDER BY date model. -/
def insertByDate (r : StockRow) : List StockRow → List StockRow
  | [] => [r]
  | x :: xs => if r.date ≤ x.date then r :: x :: xs else x :: insertByDate r xs

/-- The ORDER BY StockData.date clause of DataCache.get, modelled as an
insertion sort on the date field. -/
def sortByDate : List StockRow → List StockRow
  | [] => []
  | x :: xs => insertByDate x (sortByDate xs)

/-- DataCache.get: a missing metadata row for the exact range key is an
immediate miss; otherwise last_accessed is bumped, the per-date rows
with matching symbol and date within the closed range are selected in
date order, an empty selection is a miss, and otherwise the frame is
rebuilt with the five OHLCV columns. Returns the result together with
the database after the access-time bump. -/
def cacheGet (now : Rat) (symbol : String) (startDate endDate : Int)
    (db : CacheDB) : Option DataFrame × CacheDB :=
  let key := cacheKey symbol startDate endDate
  match db.meta.find? (fun m => m.cache_key == key) with
  | none => (none, db)
  | some _ =>
    let db2 : CacheDB :=
      { db with
        meta := db.meta.map (fun m =>
          if m.cache_key == key then { m with last_accessed := now } else m) }
    let records := sortByDate (db.stock.filter (fun r =>
      r.symbol == symbol && startDate ≤ r.date && r.date ≤ endDate))
    if records.isEmpty then (none, db2)
    else
      (some { columns := requiredColumns
              rows := records.map (fun r =>
                { date := r.date
                  open_price := r.open_price
                  high_price := r.high_price
                  low_price := r.low_price
                  close_price := r.close_price
                  volume := r.volume }) }, db2)

/-- DataCache.get_metadata: the metadata row for the exact range key,
if any. -/
def getMetadata (symbol : String) (startDate endDate : Int)
    (db : CacheDB) : Option MetaRow :=
  db.meta.find? (fun m => m.cache_key == cacheKey symbol startDate endDate)

/-! ## Freshness manager (tradebot/data/freshness.py) -/

/-- Cache age in minutes as computed by FreshnessManager.get_cache_age:
either a finite float or the float infinity returned when no metadata
exists (and on the internal failure branches, which the model cannot
reach because its timestamps always parse). -/
inductive CacheAge where
  | infinite
  | finite (minutes : Rat)
deriving DecidableEq, Repr

/-- The float comparison age <= threshold of is_data_fresh: infinity is
below no finite threshold. -/
def ageLE (a : CacheAge) (threshold : Rat) : Bool :=
  match a with
  | .infinite => false
  | .finite m => decide (m ≤ threshold)

/-- The exchange-local current moment, as the freshness logic reads it:
the Python weekday (zero is Monday, six is Sunday) and the time of day
in minutes (fractional seconds allowed). -/
structure MarketTime where
  weekday : Nat
  minutesOfDay : Rat
deriving DecidableEq, Repr

/-- FreshnessManager.is_weekend: Saturday or Sunday, in the exchange
timezone (Python weekday() at least five). -/
def isWeekend (t : MarketTime) : Bool :=
  decide (5 ≤ t.weekday)

/-- FreshnessManager.is_market_open: false on weekends, otherwise the
time of day lies in the closed window from 09:30 (minute 570) to 16:00
(minute 960). -/
def isMarketOpen (t : MarketTime) : Bool :=
  if isWeekend t then false
  else decide ((570 : Rat) ≤ t.minutesOfDay) && decide (t.minutesOfDay ≤ (960 : Rat))

/-- FreshnessManager._get_adaptive_threshold, reading the
default_freshness_minutes table: 1440 on a weekend, 5 while the market
is open, 240 otherwise. -/
def getAdaptiveThreshold (t : MarketTime) : Nat :=
  if isWeekend t then 1440
  else if isMarketOpen t then 5
  else 240

/-- FreshnessManager.get_cache_age: infinity when no metadata row
exists for the exact range; otherwise the non-negative difference in
minutes between now and the created_at timestamp of the metadata. -/
def getCacheAge (now : Rat) (symbol : String) (startDate endDate : Int)
    (db : CacheDB) : CacheAge :=
  match getMetadata symbol startDate endDate db with
  | none => .infinite
  | some m => .finite (max 0 (now - m.created_at))

/-- FreshnessManager.is_data_fresh: compares the cache age against the
explicit threshold when one is passed, and against the adaptive
threshold of the current moment otherwise. -/
def isDataFresh (now : Rat) (t : MarketTime) (symbol : String)
    (startDate endDate : Int) (db : CacheDB)
    (thresholdMinutes : Option Nat) : Bool :=
  let age := getCacheAge now symbol startDate endDate db
  let th := match thresholdMinutes with
    | some m => m
    | none => getAdaptiveThreshold t
  ageLE age (th : Rat)

/-- C8: with no metadata row for the range, get_cache_age is the float
infinity and is_data_fresh is false for every finite threshold,
explicit or adaptive; and with no explicit threshold is_data_fresh
compares the age against the adaptive threshold of the current moment:
1440 minutes on an exchange-local weekend, 5 minutes while the market
is open, 240 minutes otherwise. -/
theorem cache_age_absent_and_adaptive_threshold
    (now : Rat) (t : MarketTime) (symbol : String)
    (startDate endDate : Int) (db : CacheDB)
    (h : getMetadata symbol startDate endDate db = none) :
    getCacheAge now symbol startDate endDate db = .infinite ∧
    (∀ th : Nat, isDataFresh now t symbol startDate endDate db (some th) = false) ∧
    isDataFresh now t symbol startDate endDate db none = false ∧
    (∀ (now2 : Rat) (t2 : MarketTime) (sym2 : String) (s2 e2 : Int)
        (db2 : CacheDB),
      isDataFresh now2 t2 sym2 s2 e2 db2 none =
        ageLE (getCacheAge now2 sym2 s2 e2 db2)
          ((if isWeekend t2 then 1440
            else if isMarketOpen t2 then 5 else 240 : Nat) : Rat)) := by
  have hage : getCacheAge now symbol startDate endDate db = .infinite := by
    simp [getCacheAge, h]
  refine ⟨hage, ?_, ?_, ?_⟩
  · intro th
    simp [isDataFresh, hage, ageLE]
  · simp [isDataFresh, hage, ageLE]
  · intro now2 t2 sym2 s2 e2 db2
    simp [isDataFresh, getAdaptiveThreshold]

/-- Witness for cache_age_absent_and_adaptive_threshold: an empty
database holds no metadata for any range. -/
theorem cache_age_absent_witness :
    getCacheAge 500 "AAPL" 1 5 { stock := [], meta := [] } = .infinite ∧
    (∀ th : Nat, isDataFresh 500 { weekday := 2, minutesOfDay := 600 }
        "AAPL" 1 5 { stock := [], meta := [] } (some th) = false) ∧
    isDataFresh 500 { weekday := 2, minutesOfDay := 600 }
        "AAPL" 1 5 { stock := [], meta := [] } none = false ∧
    (∀ (now2 : Rat) (t2 : MarketTime) (sym2 : String) (s2 e2 : Int)
        (db2 : CacheDB),
      isDataFresh now2 t2 sym2 s2 e2 db2 none =
        ageLE (getCacheAge now2 sym2 s2 e2 db2)
          ((if isWeekend t2 then 1440
            else if isMarketOpen t2 then 5 else 240 : Nat) : Rat)) :=
  cache_age_absent_and_adaptive_threshold 500
    { weekday := 2, minutesOfDay := 600 } "AAPL" 1 5
    { stock := [], meta := [] } (by rfl)

/-! ## Claims about store and validate -/

/-- A one-row frame missing the volume column. -/
def dfMissingVolume : DataFrame :=
  { columns := ["open", "high", "low", "close"]
    rows := [{ date := 1, open_price := 1, high_price := 2, low_price := 1,
               close_price := 2, volume := 0 }] }

/-- C5 counterexample: storing a non-empty frame that lacks a required
column raises the builtin ValueError, not the ValidationError class of
tradebot/exceptions.py that the claim names. -/
theorem store_missing_column_raises_valueError :
    store 0 "AAPL" 1 1 dfMissingVolume { stock := [], meta := [] } =
      .error .valueError ∧
    (Except.error PyError.valueError :
      Except PyError CacheDB) ≠ .error .validationError := by
  constructor
  · rfl
  · intro h
    exact absurd (Except.error.inj h) (by decide)

/-- C5 amended: store on an empty frame is a no-op returning the
database unchanged without raising, and on a non-empty frame missing a
required column it fails with the builtin ValueError (the source
explicitly documents ValueError for this path). -/
theorem store_empty_noop_and_missing_column (now : Rat) (symbol : String)
    (startDate endDate : Int) (df : DataFrame) (db : CacheDB) :
    (df.isEmpty = true → store now symbol startDate endDate df db = .ok db) ∧
    (df.isEmpty = false → (missingColumns df).isEmpty = false →
      store now symbol startDate endDate df db = .error .valueError) := by
  constructor
  · intro h
    simp [store, h]
  · intro h hm
    simp [store, h, hm]

/-- Witness for store_empty_noop_and_missing_column: an empty frame
and the volume-less frame, against the empty database. -/
theorem store_empty_noop_witness :
    ((DataFrame.mk requiredColumns []).isEmpty = true →
      store 0 "AAPL" 1 1 (DataFrame.mk requiredColumns [])
        { stock := [], meta := [] } = .ok { stock := [], meta := [] }) ∧
    ((DataFrame.mk requiredColumns []).isEmpty = false →
      (missingColumns (DataFrame.mk requiredColumns [])).isEmpty = false →
      store 0 "AAPL" 1 1 (DataFrame.mk requiredColumns [])
        { stock := [], meta := [] } = .error .valueError) :=
  store_empty_noop_and_missing_column 0 "AAPL" 1 1
    (DataFrame.mk requiredColumns []) { stock := [], meta := [] }

/-- A two-row frame whose index repeats the same date. -/
def dfDuplicateDates : DataFrame :=
  { columns := requiredColumns
    rows := [{ date := 5, open_price := 1, high_price := 2, low_price := 1,
               close_price := 2, volume := 10 },
             { date := 5, open_price := 3, high_price := 4, low_price := 3,
               close_price := 4, volume := 20 }] }

/-- C6 counterexample: a frame with two rows on the same date passes
validation (pandas is_monotonic_increasing tolerates ties), although
its index is not strictly increasing, so validation does not enforce
strict chronological order and the claimed failure does not occur. -/
theorem validate_accepts_duplicate_dates :
    validate dfDuplicateDates = .ok dfDuplicateDates ∧
    strictlyIncreasing (dfDates dfDuplicateDates) = false := by
  constructor
  · rfl
  · rfl

/-- C6 amended: on a non-empty frame with all required columns,
validation succeeds exactly when the index is non-strictly
non-decreasing (pandas is_monotonic_increasing, ties allowed), and a
non-monotonic index — dates out of order — raises ValidationError;
duplicate dates are accepted. -/
theorem validate_monotonic_gate (df : DataFrame)
    (h : df.isEmpty = false) (hm : (missingColumns df).isEmpty = true) :
    (validate df = .ok df ↔ isMonotonicIncreasing (dfDates df) = true) ∧
    (isMonotonicIncreasing (dfDates df) = false →
      validate df = .error .validationError) := by
  constructor
  · constructor
    · intro hv
      by_contra hb
      have hmono : isMonotonicIncreasing (dfDates df) = false := by
        cases hq : isMonotonicIncreasing (dfDates df)
        · rfl
        · exact absurd hq hb
      simp [validate, h, hm, hmono] at hv
    · intro hmono
      simp [validate, h, hm, hmono]
  · intro hmono
    simp [validate, h, hm, hmono]

/-- Witness for validate_monotonic_gate at a concrete out-of-order
frame (dates three then one). -/
theorem validate_monotonic_gate_witness :
    (validate (DataFrame.mk requiredColumns
        [{ date := 3, open_price := 1, high_price := 1, low_price := 1,
           close_price := 1, volume := 1 },
         { date := 1, open_price := 1, high_price := 1, low_price := 1,
           close_price := 1, volume := 1 }]) =
      .ok (DataFrame.mk requiredColumns
        [{ date := 3, open_price := 1, high_price := 1, low_price := 1,
           close_price := 1, volume := 1 },
         { date := 1, open_price := 1, high_price := 1, low_price := 1,
           close_price := 1, volume := 1 }]) ↔
      isMonotonicIncreasing (dfDates (DataFrame.mk requiredColumns
        [{ date := 3, open_price := 1, high_price := 1, low_price := 1,
           close_price := 1, volume := 1 },
         { date := 1, open_price := 1, high_price := 1, low_price := 1,
           close_price := 1, volume := 1 }])) = true) ∧
    (isMonotonicIncreasing (dfDates (DataFrame.mk requiredColumns
        [{ date := 3, open_price := 1, high_price := 1, low_price := 1,
           close_price := 1, volume := 1 },
         { date := 1, open_price := 1, high_price := 1, low_price := 1,
           close_price := 1, volume := 1 }])) = false →
      validate (DataFrame.mk requiredColumns
        [{ date := 3, open_price := 1, high_price := 1, low_price := 1,
           close_price := 1, volume := 1 },
         { date := 1, open_price := 1, high_price := 1, low_price := 1,
           close_price := 1, volume := 1 }]) = .error .validationError) :=
  validate_monotonic_gate (DataFrame.mk requiredColumns
    [{ date := 3, open_price := 1, high_price := 1, low_price := 1,
       close_price := 1, volume := 1 },
     { date := 1, open_price := 1, high_price := 1, low_price := 1,
       close_price := 1, volume := 1 }]) (by rfl) (by rfl)

/-! ## Single-symbol fetch (tradebot/data/batch.py _fetch_single_symbol
and tradebot/data/fetcher.py fetch_historical_data)

The external provider client (twelvedata TDClient time_series) is an
opaque collaborator; a fetch scenario carries its response as a value
of Except PyError DataFrame. -/

/-- Observable outcome of one single-symbol fetch: the returned frame
or raised exception, the ledger and cache database afterwards, and
whether the provider client was invoked. -/
structure FetchOut where
  result : Except PyError DataFrame
  ledger : Ledger
  db : CacheDB
  providerCalled : Bool
deriving Repr

/-- The shared cache-miss continuation of both fetch entry points: the
quota gate, the provider call, record_request after the provider call
is issued, validation, and the cache store. Exceptions raised inside
the try block pass through unwrapped when they are InvalidSymbolError
and are wrapped into DataFetchError otherwise (so a ValidationError or
a store failure surfaces as DataFetchError from this path). -/
def fetchViaApi (limit today : Nat) (now : Rat)
    (provider : Except PyError DataFrame) (symbol : String)
    (startDate endDate : Int) (ledger : Ledger) (db : CacheDB) : FetchOut :=
  let gate := canMakeRequest limit today ledger
  if !gate.1 then
    { result := .error .quotaExceeded, ledger := gate.2, db := db
      providerCalled := false }
  else
    match provider with
    | .error e =>
      { result := .error (if e = .invalidSymbol then .invalidSymbol else .dataFetch)
        ledger := gate.2, db := db, providerCalled := true }
    | .ok data =>
      let ledger2 := recordRequest today gate.2
      match validate data with
      | .error _ =>
        { result := .error .dataFetch, ledger := ledger2, db := db
          providerCalled := true }
      | .ok vd =>
        match store now symbol startDate endDate vd db with
        | .error _ =>
          { result := .error .dataFetch, ledger := ledger2, db := db
            providerCalled := true }
        | .ok db2 =>
          { result := .ok vd, ledger := ledger2, db := db2
            providerCalled := true }

/-- BatchProcessor._fetch_single_symbol: any cached data for the exact
range is returned as-is, with no freshness consultation; otherwise the
quota gate and provider path run. -/
def fetchSingleSymbol (limit today : Nat) (now : Rat)
    (provider : Except PyError DataFrame) (symbol : String)
    (startDate endDate : Int) (ledger : Ledger) (db : CacheDB) : FetchOut :=
  match cacheGet now symbol startDate endDate db with
  | (some d, db2) =>
    { result := .ok d, ledger := ledger, db := db2, providerCalled := false }
  | (none, db2) =>
    fetchViaApi limit today now provider symbol startDate endDate ledger db2

/-- DataFetcher._is_fresh: the source returns True unconditionally (the
stub is documented as a placeholder). -/
def isFreshStub (_ : DataFrame) : Bool :=
  true

/-- DataFetcher.fetch_historical_data: cached data is returned when
present and _is_fresh accepts it (it always does); otherwise the quota
gate and provider path run. -/
def fetchHistoricalData (limit today : Nat) (now : Rat)
    (provider : Except PyError DataFrame) (symbol : String)
    (startDate endDate : Int) (ledger : Ledger) (db : CacheDB) : FetchOut :=
  match cacheGet now symbol startDate endDate db with
  | (some d, db2) =>
    if isFreshStub d then
      { result := .ok d, ledger := ledger, db := db2, providerCalled := false }
    else
      fetchViaApi limit today now provider symbol startDate endDate ledger db2
  | (none, db2) =>
    fetchViaApi limit today now provider symbol startDate endDate ledger db2

/-! ## Batch processing (tradebot/data/batch.py) -/

/-- BatchProcessor.calculate_optimal_batch_size, taking the remaining
field of the rate limiter usage snapshot (a Python int, possibly
negative): the minimum of the symbol count and the remaining quota,
floored to one when the remaining quota is positive and the minimum
computed to zero. -/
def calculateOptimalBatchSize (symbols : List String) (remaining : Int) : Int :=
  let total : Int := symbols.length
  let optimal := min total remaining
  if 0 < remaining ∧ optimal = 0 then 1 else optimal

/-- Python list slicing symbols[:n] for an int n: the first n elements
when n is non-negative, all but the last -n elements when n is
negative (clamped at the empty list). -/
def pySliceTo (l : List String) (n : Int) : List String :=
  if 0 ≤ n then l.take n.toNat else l.take ((l.length : Int) + n).toNat

/-- The sequential per-symbol loop of fetch_multiple_symbols: each
symbol runs through _fetch_single_symbol with the threaded ledger and
cache state; a success is appended to the result map and any raised
exception (invalid symbol or otherwise) skips the symbol and continues. -/
def fetchSymbolsLoop (limit today : Nat) (now : Rat)
    (provider : String → Except PyError DataFrame)
    (startDate endDate : Int) :
    List String → Ledger → CacheDB →
      List (String × DataFrame) × Ledger × CacheDB
  | [], ledger, db => ([], ledger, db)
  | sym :: rest, ledger, db =>
    let out := fetchSingleSymbol limit today now (provider sym) sym
      startDate endDate ledger db
    match out.result with
    | .ok d =>
      let tail := fetchSymbolsLoop limit today now provider startDate endDate
        rest out.ledger out.db
      ((sym, d) :: tail.1, tail.2)
    | .error _ =>
      fetchSymbolsLoop limit today now provider startDate endDate
        rest out.ledger out.db

/-- BatchProcessor.fetch_multiple_symbols: reads the usage snapshot,
sizes the batch, raises QuotaExceededError when the computed batch size
is zero, and otherwise processes the sliced symbol prefix sequentially. -/
def fetchMultipleSymbols (limit today : Nat) (now : Rat)
    (provider : String → Except PyError DataFrame)
    (symbols : List String) (startDate endDate : Int)
    (ledger : Ledger) (db : CacheDB) :
    Except PyError (List (String × DataFrame) × Ledger × CacheDB) :=
  let usage := getUsage limit today ledger
  let batchSize := calculateOptimalBatchSize symbols usage.1.remaining
  if batchSize = 0 then .error .quotaExceeded
  else
    .ok (fetchSymbolsLoop limit today now provider startDate endDate
      (pySliceTo symbols batchSize) usage.2 db)

/-! ## Claims about the single-symbol fetch path -/

/-- A cache database holding one candle for AAPL on day 1 with its
range metadata created at minute 0. -/
def exStaleDB : CacheDB :=
  { stock := [{ symbol := "AAPL", date := 1, open_price := 1, high_price := 1,
                low_price := 1, close_price := 1, volume := 1 }]
    meta := [{ cache_key := cacheKey "AAPL" 1 1, symbol := "AAPL",
               start_date := 1, end_date := 1, record_count := 1,
               data_size_bytes := 1, created_at := 0, last_accessed := 0 }] }

/-- The frame DataCache.get rebuilds from exStaleDB. -/
def exStaleDF : DataFrame :=
  { columns := requiredColumns
    rows := [{ date := 1, open_price := 1, high_price := 1,
               low_price := 1, close_price := 1, volume := 1 }] }

/-- C1 counterexample: at minute 1000000 on a weekday with the market
open, the cached AAPL range (created at minute 0) is stale for the
Freshness Manager under every applicable threshold, yet step 1 of the
single-symbol fetch returns it, with zero quota cost and no provider
invocation — cached data that is present but not fresh is returned. -/
theorem stale_cache_returned_from_step_one :
    isDataFresh 1000000 { weekday := 2, minutesOfDay := 600 }
      "AAPL" 1 1 exStaleDB none = false ∧
    (fetchSingleSymbol 800 0 1000000 (.error .dataFetch) "AAPL" 1 1
      { day := 0, used := 0 } exStaleDB).result = .ok exStaleDF ∧
    (fetchSingleSymbol 800 0 1000000 (.error .dataFetch) "AAPL" 1 1
      { day := 0, used := 0 } exStaleDB).ledger = { day := 0, used := 0 } ∧
    (fetchSingleSymbol 800 0 1000000 (.error .dataFetch) "AAPL" 1 1
      { day := 0, used := 0 } exStaleDB).providerCalled = false := by
  refine ⟨?_, ?_, by rfl, by rfl⟩
  · have hmeta : getMetadata "AAPL" 1 1 exStaleDB =
        some { cache_key := cacheKey "AAPL" 1 1, symbol := "AAPL",
               start_date := 1, end_date := 1, record_count := 1,
               data_size_bytes := 1, created_at := 0, last_accessed := 0 } := rfl
    have hage : getCacheAge 1000000 "AAPL" 1 1 exStaleDB = .finite 1000000 := by
      unfold getCacheAge
      rw [hmeta]
      show CacheAge.finite (max 0 ((1000000 : Rat) - 0)) = .finite 1000000
      norm_num
    have hfresh : isDataFresh 1000000 { weekday := 2, minutesOfDay := 600 }
        "AAPL" 1 1 exStaleDB none =
        ageLE (getCacheAge 1000000 "AAPL" 1 1 exStaleDB)
          ((getAdaptiveThreshold { weekday := 2, minutesOfDay := 600 } : Nat) : Rat) :=
      rfl
    have hadapt : getAdaptiveThreshold { weekday := 2, minutesOfDay := 600 } = 5 := by
      decide
    rw [hfresh, hage, hadapt]
    simp [ageLE]
    norm_num
  · rfl

/-- C1 amended: in the single-symbol fetch paths (both the batch
helper and the fetcher), cached data for the exact range is returned
from step 1 whenever it exists, with no freshness consultation — the
fetcher freshness hook is a stub that always accepts — and on that
path requests_used is unchanged and the provider is not invoked (the
zero-quota-cost half of the original claim). -/
theorem cached_hit_returned_unconditionally (limit today : Nat)
    (now : Rat) (provider : Except PyError DataFrame) (symbol : String)
    (startDate endDate : Int) (ledger : Ledger) (db : CacheDB)
    (d : DataFrame) (db2 : CacheDB)
    (h : cacheGet now symbol startDate endDate db = (some d, db2)) :
    fetchSingleSymbol limit today now provider symbol startDate endDate
      ledger db =
      { result := .ok d, ledger := ledger, db := db2, providerCalled := false } ∧
    fetchHistoricalData limit today now provider symbol startDate endDate
      ledger db =
      { result := .ok d, ledger := ledger, db := db2, providerCalled := false } := by
  constructor
  · simp [fetchSingleSymbol, h]
  · simp [fetchHistoricalData, h, isFreshStub]

/-- Witness for cached_hit_returned_unconditionally at the concrete
stale-cache database. -/
theorem cached_hit_returned_witness :
    fetchSingleSymbol 800 0 1000000 (.error .dataFetch) "AAPL" 1 1
      { day := 0, used := 0 } exStaleDB =
      { result := .ok exStaleDF, ledger := { day := 0, used := 0 }
        db := (cacheGet 1000000 "AAPL" 1 1 exStaleDB).2
        providerCalled := false } ∧
    fetchHistoricalData 800 0 1000000 (.error .dataFetch) "AAPL" 1 1
      { day := 0, used := 0 } exStaleDB =
      { result := .ok exStaleDF, ledger := { day := 0, used := 0 }
        db := (cacheGet 1000000 "AAPL" 1 1 exStaleDB).2
        providerCalled := false } :=
  cached_hit_returned_unconditionally 800 0 1000000 (.error .dataFetch)
    "AAPL" 1 1 { day := 0, used := 0 } exStaleDB exStaleDF
    (cacheGet 1000000 "AAPL" 1 1 exStaleDB).2 (by rfl)

/-! ## Claims about batch sizing -/

/-- C4 counterexample: with daily_limit 3 and 5 requests already used
(a reachable state, since record_request never caps), remaining is -2;
calculate_optimal_batch_size returns -2 rather than 0 although no
quota remains, and fetch_multiple_symbols does not raise QuotaExceeded
— it proceeds and processes the Python slice symbols[:-2]. -/
theorem negative_remaining_not_floored_to_zero :
    (getUsage 3 0 { day := 0, used := 5 }).1.remaining = -2 ∧
    calculateOptimalBatchSize ["A", "B", "C", "D", "E"] (-2) = -2 ∧
    ((-2 : Int) ≠ 0) ∧
    fetchMultipleSymbols 3 0 0 (fun _ => .error .dataFetch)
      ["A", "B", "C", "D", "E"] 1 1 { day := 0, used := 5 }
      { stock := [], meta := [] } =
      .ok ([], { day := 0, used := 5 }, { stock := [], meta := [] }) := by
  refine ⟨by rfl, by decide, by decide, ?_⟩
  rfl

/-- C4 amended: for non-negative remaining quota the function returns
the minimum of the symbol count and the remaining quota, floored to
one when the remaining quota is positive and that minimum is zero, and
it returns zero exactly when the remaining quota is exactly zero, in
which case fetch_multiple_symbols raises QuotaExceeded before touching
any symbol; with five symbols and remaining three it returns exactly
three. When the remaining quota is negative the function returns that
negative value itself (not zero) and fetch_multiple_symbols does not
fail fast. -/
theorem batch_size_policy (symbols : List String) (remaining : Int) :
    (remaining < 0 → calculateOptimalBatchSize symbols remaining = remaining) ∧
    (calculateOptimalBatchSize symbols remaining = 0 ↔ remaining = 0) ∧
    (0 < remaining →
      calculateOptimalBatchSize symbols remaining =
        if min ((symbols.length : Int)) remaining = 0 then 1
        else min ((symbols.length : Int)) remaining) ∧
    calculateOptimalBatchSize ["A", "B", "C", "D", "E"] 3 = 3 ∧
    (∀ (limit today : Nat) (now : Rat)
        (provider : String → Except PyError DataFrame) (s e : Int)
        (ledger : Ledger) (db : CacheDB),
      (getUsage limit today ledger).1.remaining = 0 →
      fetchMultipleSymbols limit today now provider symbols s e ledger db =
        .error .quotaExceeded) := by
  refine ⟨?_, ?_, ?_, by decide, ?_⟩
  · intro h
    simp only [calculateOptimalBatchSize]
    split <;> omega
  · simp only [calculateOptimalBatchSize]
    split <;> omega
  · intro h
    simp only [calculateOptimalBatchSize]
    split <;> split <;> omega
  · intro limit today now provider s e ledger db h
    have hz : calculateOptimalBatchSize symbols 0 = 0 := by
      simp only [calculateOptimalBatchSize]
      split <;> omega
    simp only [fetchMultipleSymbols, h, hz, if_pos]

/-- Witness for batch_size_policy: one symbol with remaining -1, the
five-symbol instance, and a zero-remaining batch call that raises. -/
theorem batch_size_policy_witness :
    calculateOptimalBatchSize ["X"] (-1) = -1 ∧
    calculateOptimalBatchSize ["A", "B", "C", "D", "E"] 3 = 3 ∧
    fetchMultipleSymbols 2 0 0 (fun _ => .error .dataFetch) ["X"] 1 1
      { day := 0, used := 2 } { stock := [], meta := [] } =
      .error .quotaExceeded :=
  ⟨(batch_size_policy ["X"] (-1)).1 (by decide),
   (batch_size_policy ["X"] (-1)).2.2.2.1,
   (batch_size_policy ["X"] (-1)).2.2.2.2 2 0 0 (fun _ => .error .dataFetch)
     1 1 { day := 0, used := 2 } { stock := [], meta := [] } (by rfl)⟩

/-! ## Claims about per-symbol failure isolation in the batch loop -/

/-- Cache keys for a fixed range determine the symbol. -/
theorem cacheKey_symbol_inj {a b : String} {s e : Int}
    (h : cacheKey a s e = cacheKey b s e) : a = b := by
  unfold cacheKey at h
  have h2 := congrArg String.data h
  simp only [String.data_append, List.append_assoc] at h2
  exact String.ext (List.append_cancel_right h2)

/-- No metadata row of the list carries the given cache key. -/
def keysAvoid (key : String) (meta : List MetaRow) : Prop :=
  ∀ m ∈ meta, m.cache_key ≠ key

theorem find?_none_of_keysAvoid {key : String} {meta : List MetaRow}
    (h : keysAvoid key meta) :
    meta.find? (fun m => m.cache_key == key) = none :=
  List.find?_eq_none.mpr (fun m hm => by simp [h m hm])

theorem cacheGet_none_of_keysAvoid {key : String} {db : CacheDB}
    {now : Rat} {symbol : String} {startDate endDate : Int}
    (hkey : key = cacheKey symbol startDate endDate)
    (h : keysAvoid key db.meta) :
    cacheGet now symbol startDate endDate db = (none, db) := by
  simp only [cacheGet]
  rw [← hkey, find?_none_of_keysAvoid h]

theorem keysAvoid_cacheGet {key : String} {db : CacheDB}
    {now : Rat} {symbol : String} {startDate endDate : Int}
    (h : keysAvoid key db.meta) :
    keysAvoid key ((cacheGet now symbol startDate endDate db).2).meta := by
  simp only [cacheGet]
  cases hf : db.meta.find? (fun m => m.cache_key == cacheKey symbol startDate endDate) with
  | none => exact h
  | some m0 =>
    simp only
    split
    all_goals
      intro m2 hm2
      simp only [List.mem_map] at hm2
      obtain ⟨m, hm, hfm⟩ := hm2
      subst hfm
      by_cases hk : m.cache_key == cacheKey symbol startDate endDate
      · simpa [hk] using h m hm
      · simpa [hk] using h m hm

theorem keysAvoid_upsertMeta {key : String} {meta : List MetaRow}
    {row : MetaRow} {now : Rat}
    (h : keysAvoid key meta) (hrow : row.cache_key ≠ key) :
    keysAvoid key (upsertMeta row now meta) := by
  simp only [upsertMeta]
  split
  · intro m2 hm2
    simp only [List.mem_map] at hm2
    obtain ⟨m, hm, hfm⟩ := hm2
    subst hfm
    by_cases hk : m.cache_key == row.cache_key
    · simpa [hk] using h m hm
    · simpa [hk] using h m hm
  · intro m2 hm2
    rcases List.mem_append.mp hm2 with hmem | hmem
    · exact h m2 hmem
    · rcases List.mem_singleton.mp hmem with rfl
      exact hrow

theorem keysAvoid_store {key : String} {db db2 : CacheDB} {now : Rat}
    {symbol : String} {startDate endDate : Int} {df : DataFrame}
    (h : keysAvoid key db.meta) (hkey : cacheKey symbol startDate endDate ≠ key)
    (hst : store now symbol startDate endDate df db = .ok db2) :
    keysAvoid key db2.meta := by
  simp only [store] at hst
  split at hst
  · cases hst
    exact h
  · split at hst
    · simp at hst
    · injection hst with h2
      subst h2
      exact keysAvoid_upsertMeta h hkey

theorem fetchViaApi_never_ok_of_provider_fails {limit today : Nat}
    {now : Rat} {provider : Except PyError DataFrame} {symbol : String}
    {startDate endDate : Int} {ledger : Ledger} {db : CacheDB}
    (hprov : ∀ d, provider ≠ .ok d) :
    ∀ d, (fetchViaApi limit today now provider symbol startDate endDate
      ledger db).result ≠ .ok d := by
  intro d
  simp only [fetchViaApi]
  split
  · simp
  · cases hp : provider with
    | error e => simp
    | ok dd => exact absurd hp (hprov dd)

theorem keysAvoid_fetchViaApi {key : String} {limit today : Nat}
    {now : Rat} {provider : Except PyError DataFrame} {symbol : String}
    {startDate endDate : Int} {ledger : Ledger} {db : CacheDB}
    (h : keysAvoid key db.meta)
    (hor : cacheKey symbol startDate endDate ≠ key ∨ ∀ d, provider ≠ .ok d) :
    keysAvoid key (fetchViaApi limit today now provider symbol startDate endDate
      ledger db).db.meta := by
  simp only [fetchViaApi]
  split
  · exact h
  · cases hp : provider with
    | error e => exact h
    | ok data =>
      rcases hor with hkey | hprov
      · simp only
        cases hv : validate data with
        | error e2 => exact h
        | ok vd =>
          simp only
          cases hst : store now symbol startDate endDate vd db with
          | error e3 => exact h
          | ok db3 => exact keysAvoid_store h hkey hst
      · exact absurd hp (hprov data)

theorem keysAvoid_fetchSingleSymbol {key : String} {limit today : Nat}
    {now : Rat} {provider : Except PyError DataFrame} {symbol : String}
    {startDate endDate : Int} {ledger : Ledger} {db : CacheDB}
    (h : keysAvoid key db.meta)
    (hor : cacheKey symbol startDate endDate ≠ key ∨ ∀ d, provider ≠ .ok d) :
    keysAvoid key (fetchSingleSymbol limit today now provider symbol
      startDate endDate ledger db).db.meta := by
  unfold fetchSingleSymbol
  rcases hc : cacheGet now symbol startDate endDate db with ⟨copt, db2⟩
  have hdb2 : keysAvoid key db2.meta := by
    have := @keysAvoid_cacheGet key db now symbol startDate endDate h
    rwa [hc] at this
  cases copt with
  | some d => simpa using hdb2
  | none => simpa using keysAvoid_fetchViaApi hdb2 hor

theorem fetchSingleSymbol_not_ok_of_fails {key : String} {limit today : Nat}
    {now : Rat} {provider : Except PyError DataFrame} {symbol : String}
    {startDate endDate : Int} {ledger : Ledger} {db : CacheDB}
    (hkey : key = cacheKey symbol startDate endDate)
    (h : keysAvoid key db.meta) (hprov : ∀ d, provider ≠ .ok d) :
    ∀ d, (fetchSingleSymbol limit today now provider symbol startDate endDate
      ledger db).result ≠ .ok d := by
  intro d
  unfold fetchSingleSymbol
  rw [cacheGet_none_of_keysAvoid hkey h]
  exact fetchViaApi_never_ok_of_provider_fails hprov d

/-- Loop-level skip property: a symbol whose provider response is never
a success, and for which no cached range metadata exists, never appears
in the result map of the sequential batch loop, whatever other symbols
are processed around it. -/
theorem fetchSymbolsLoop_omits_failing {limit today : Nat} {now : Rat}
    {provider : String → Except PyError DataFrame} {startDate endDate : Int}
    (sym : String) (hprov : ∀ d, provider sym ≠ .ok d) :
    ∀ (symbols : List String) (ledger : Ledger) (db : CacheDB),
      keysAvoid (cacheKey sym startDate endDate) db.meta →
      sym ∉ (fetchSymbolsLoop limit today now provider startDate endDate
        symbols ledger db).1.map Prod.fst := by
  intro symbols
  induction symbols with
  | nil =>
    intro ledger db hdb
    simp [fetchSymbolsLoop]
  | cons sym0 rest ih =>
    intro ledger db hdb
    have hor : cacheKey sym0 startDate endDate ≠ cacheKey sym startDate endDate ∨
        ∀ d, provider sym0 ≠ .ok d := by
      by_cases hs : sym0 = sym
      · exact Or.inr (hs ▸ hprov)
      · exact Or.inl (fun hEq => hs (cacheKey_symbol_inj hEq))
    have hpres := @keysAvoid_fetchSingleSymbol (cacheKey sym startDate endDate)
      limit today now (provider sym0) sym0 startDate endDate ledger db hdb hor
    unfold fetchSymbolsLoop
    cases hres : (fetchSingleSymbol limit today now (provider sym0) sym0
        startDate endDate ledger db).result with
    | ok d =>
      have hne : sym0 ≠ sym := by
        intro hEq
        subst hEq
        exact fetchSingleSymbol_not_ok_of_fails rfl hdb hprov d hres
      simp only [hres, List.map_cons, List.mem_cons]
      rintro (hhead | htail)
      · exact hne hhead.symm
      · exact ih _ _ hpres htail
    | error e =>
      simp only [hres]
      exact ih _ _ hpres

/-- The two frames the concrete batch scenario fetches. -/
def dfAAPL : DataFrame :=
  { columns := requiredColumns
    rows := [{ date := 10, open_price := 1, high_price := 1, low_price := 1,
               close_price := 1, volume := 100 }] }

/-- Second successful frame of the concrete batch scenario. -/
def dfMSFT : DataFrame :=
  { columns := requiredColumns
    rows := [{ date := 10, open_price := 2, high_price := 2, low_price := 2,
               close_price := 2, volume := 200 }] }

/-- Provider responses of the concrete batch scenario: INVALID raises
InvalidSymbolError, the other two symbols succeed. -/
def exProvider : String → Except PyError DataFrame := fun sym =>
  if sym == "INVALID" then .error .invalidSymbol
  else if sym == "AAPL" then .ok dfAAPL
  else .ok dfMSFT

/-- C7: with ample quota and a cold cache, fetch_multiple_symbols over
the symbols AAPL, INVALID, MSFT — where only INVALID fails — returns a
result map holding exactly AAPL and MSFT in order, omitting INVALID;
and in general a symbol whose provider call never succeeds and that has
no cached metadata for the range never appears in any batch result. -/
theorem batch_skips_failing_symbol :
    Except.map (fun out => out.1)
      (fetchMultipleSymbols 800 0 0 exProvider ["AAPL", "INVALID", "MSFT"]
        10 10 { day := 0, used := 0 } { stock := [], meta := [] }) =
      .ok [("AAPL", dfAAPL), ("MSFT", dfMSFT)] ∧
    (∀ (limit today : Nat) (now : Rat)
        (provider : String → Except PyError DataFrame)
        (startDate endDate : Int) (symbols : List String)
        (ledger : Ledger) (db : CacheDB) (sym : String),
      (∀ d, provider sym ≠ .ok d) →
      keysAvoid (cacheKey sym startDate endDate) db.meta →
      sym ∉ (fetchSymbolsLoop limit today now provider startDate endDate
        symbols ledger db).1.map Prod.fst) := by
  constructor
  · rfl
  · intro limit today now provider startDate endDate symbols ledger db sym
      hprov hdb
    exact fetchSymbolsLoop_omits_failing sym hprov symbols ledger db hdb

/-- Witness for batch_skips_failing_symbol: the INVALID symbol of the
concrete scenario is absent from the loop result. -/
theorem batch_skips_failing_symbol_witness :
    "INVALID" ∉ (fetchSymbolsLoop 800 0 0 exProvider 10 10
      ["AAPL", "INVALID", "MSFT"] { day := 0, used := 0 }
      { stock := [], meta := [] }).1.map Prod.fst :=
  batch_skips_failing_symbol.2 800 0 0 exProvider 10 10
    ["AAPL", "INVALID", "MSFT"] { day := 0, used := 0 }
    { stock := [], meta := [] } "INVALID"
    (fun d h => by simp [exProvider] at h)
    (fun m hm => by simp at hm)

/-! ## Error recovery backoff -/

/-- Modelled from the spec: the Error Recovery component (class
ErrorRecovery of tradebot/data/recovery.py) is missing from the source
tree; only its unit tests refer to it. The spec describes
calculate_backoff_time as strictly increasing in the attempt number,
starting at one second or more, capped at 60 seconds, for example
doubling per attempt and clamped; this definition realizes that
description literally (seconds, doubling, clamp at 60). -/
def calculateBackoffTime (attempt : Nat) : Nat :=
  min (2 ^ attempt) 60

/-- C9: the backoff time is strictly increasing across attempts one
through five, at least one second from the first attempt on, and never
above sixty seconds. -/
theorem backoff_increasing_bounded :
    (∀ a b : Nat, 1 ≤ a → a < b → b ≤ 5 →
      calculateBackoffTime a < calculateBackoffTime b) ∧
    1 ≤ calculateBackoffTime 1 ∧
    (∀ a : Nat, calculateBackoffTime a ≤ 60) := by
  refine ⟨?_, by decide, ?_⟩
  · intro a b ha hab hb
    have h2a : 2 ^ a < 2 ^ b := Nat.pow_lt_pow_right (by decide) hab
    have hb32 : 2 ^ b ≤ 32 := by
      calc 2 ^ b ≤ 2 ^ 5 := Nat.pow_le_pow_right (by decide) hb
        _ = 32 := by decide
    unfold calculateBackoffTime
    rw [min_eq_left (by omega), min_eq_left (by omega)]
    exact h2a
  · intro a
    exact min_le_right _ _

/-- Witness for backoff_increasing_bounded at attempts one, two and
seven. -/
theorem backoff_increasing_bounded_witness :
    calculateBackoffTime 1 < calculateBackoffTime 2 ∧
    1 ≤ calculateBackoffTime 1 ∧
    calculateBackoffTime 7 ≤ 60 :=
  ⟨backoff_increasing_bounded.1 1 2 (by decide) (by decide) (by decide),
   backoff_increasing_bounded.2.1,
   backoff_increasing_bounded.2.2 7⟩

end Tradebot
